import Mathlib

/-!
Verification of the sketchup-csdk-converter OBJ exporter
(src/main.cpp of the converter tool).

The development is a shallow embedding of the converter's core:
doubles are modelled as real numbers, the output streams (model.obj and
model.mtl) as lists of structured records, the SketchUp collaborator
calls as data carried by the inputs (each face bundles the responses the
C API would return for it), and the mutable ObjWriter as explicitly
threaded state.
-/

set_option maxHeartbeats 1000000

noncomputable section

/-- Status codes of the SketchUp C API (SUResult). Only SU_ERROR_NONE and
SU_ERROR_GENERIC are distinguished by the converter; every other code is
carried opaquely. -/
inductive SUResult where
  | errorNone
  | errorGeneric
  | other (code : Nat)
  deriving DecidableEq

/-- SUPoint3D: a 3D point with double coordinates, modelled over the reals. -/
@[ext]
structure Point3 where
  x : ℝ
  y : ℝ
  z : ℝ

/-- SUVector3D: a 3D vector with double coordinates, modelled over the reals. -/
@[ext]
structure Vec3 where
  x : ℝ
  y : ℝ
  z : ℝ

/-- SUTransformation: a 4x4 matrix of 16 doubles in column-major order,
field mI modelling values[I]. Modelled from the spec: the spec fixes the
transform as a 4x4 affine matrix whose composition is performed by
SUTransformationMultiply (an external collaborator of the repository). -/
@[ext]
structure Transform where
  m0 : ℝ
  m1 : ℝ
  m2 : ℝ
  m3 : ℝ
  m4 : ℝ
  m5 : ℝ
  m6 : ℝ
  m7 : ℝ
  m8 : ℝ
  m9 : ℝ
  m10 : ℝ
  m11 : ℝ
  m12 : ℝ
  m13 : ℝ
  m14 : ℝ
  m15 : ℝ

/-- IdentityTransform from main.cpp lines 29-37: all zero except
values[0], values[5], values[10], values[15] set to one. -/
def identityTransform : Transform :=
  ⟨1, 0, 0, 0, 0, 1, 0, 0, 0, 0, 1, 0, 0, 0, 0, 1⟩

/-- SUTransformationMultiply: column-major 4x4 matrix product,
out[c*4+r] being the sum over k of a[k*4+r| * b[c*4+k].
Modelled from the spec: transform composition of the geometry collaborator. -/
def transformMultiply (a b : Transform) : Transform where
  m0 := a.m0 * b.m0 + a.m4 * b.m1 + a.m8 * b.m2 + a.m12 * b.m3
  m1 := a.m1 * b.m0 + a.m5 * b.m1 + a.m9 * b.m2 + a.m13 * b.m3
  m2 := a.m2 * b.m0 + a.m6 * b.m1 + a.m10 * b.m2 + a.m14 * b.m3
  m3 := a.m3 * b.m0 + a.m7 * b.m1 + a.m11 * b.m2 + a.m15 * b.m3
  m4 := a.m0 * b.m4 + a.m4 * b.m5 + a.m8 * b.m6 + a.m12 * b.m7
  m5 := a.m1 * b.m4 + a.m5 * b.m5 + a.m9 * b.m6 + a.m13 * b.m7
  m6 := a.m2 * b.m4 + a.m6 * b.m5 + a.m10 * b.m6 + a.m14 * b.m7
  m7 := a.m3 * b.m4 + a.m7 * b.m5 + a.m11 * b.m6 + a.m15 * b.m7
  m8 := a.m0 * b.m8 + a.m4 * b.m9 + a.m8 * b.m10 + a.m12 * b.m11
  m9 := a.m1 * b.m8 + a.m5 * b.m9 + a.m9 * b.m10 + a.m13 * b.m11
  m10 := a.m2 * b.m8 + a.m6 * b.m9 + a.m10 * b.m10 + a.m14 * b.m11
  m11 := a.m3 * b.m8 + a.m7 * b.m9 + a.m11 * b.m10 + a.m15 * b.m11
  m12 := a.m0 * b.m12 + a.m4 * b.m13 + a.m8 * b.m14 + a.m12 * b.m15
  m13 := a.m1 * b.m12 + a.m5 * b.m13 + a.m9 * b.m14 + a.m13 * b.m15
  m14 := a.m2 * b.m12 + a.m6 * b.m13 + a.m10 * b.m14 + a.m14 * b.m15
  m15 := a.m3 * b.m12 + a.m7 * b.m13 + a.m11 * b.m14 + a.m15 * b.m15

/-- A transform is affine when its fourth matrix row is (0, 0, 0, 1); the
spec's data model fixes every scene transform to be a 4x4 affine matrix. -/
def isAffine (t : Transform) : Prop :=
  t.m3 = 0 ∧ t.m7 = 0 ∧ t.m11 = 0 ∧ t.m15 = 1

/-- SUPoint3DTransform: applies the affine matrix to a point
(homogeneous weight one). Modelled from the spec: point transformation of
the geometry collaborator on a 4x4 affine matrix. -/
def pointTransform (t : Transform) (p : Point3) : Point3 where
  x := t.m0 * p.x + t.m4 * p.y + t.m8 * p.z + t.m12
  y := t.m1 * p.x + t.m5 * p.y + t.m9 * p.z + t.m13
  z := t.m2 * p.x + t.m6 * p.y + t.m10 * p.z + t.m14

/-- SUVector3DTransform: applies the linear part of the matrix to a vector
(homogeneous weight zero, no translation). Modelled from the spec: vector
transformation of the geometry collaborator. -/
def vecTransform (t : Transform) (v : Vec3) : Vec3 where
  x := t.m0 * v.x + t.m4 * v.y + t.m8 * v.z
  y := t.m1 * v.x + t.m5 * v.y + t.m9 * v.z
  z := t.m2 * v.x + t.m6 * v.y + t.m10 * v.z

/-- Normalize from main.cpp lines 39-46: divide by the euclidean length,
but only when that length is strictly positive; a zero-length vector is
left unchanged. -/
def Normalize (v : Vec3) : Vec3 :=
  let len := Real.sqrt (v.x * v.x + v.y * v.y + v.z * v.z)
  if len > 0 then ⟨v.x / len, v.y / len, v.z / len⟩ else v

/-- One record of the model.obj stream. add_vertex emits its v, vt and vn
lines together, so the three are modelled as one vertex record. -/
inductive ObjLine where
  | mtllib (name : String)
  | usemtlLine (name : String)
  | vertex (p : Point3) (n : Vec3) (u v : ℝ)
  | face (a b c : Nat)

/-- One newmtl block of the model.mtl stream: either a color block
(newmtl, Kd r g b, Ka 0 0 0, Ks 0 0 0, d 1, illum 1) or a textured block
(newmtl, Kd 1 1 1, Ka 0 0 0, Ks 0 0 0, d 1, illum 2, map_Kd path). -/
inductive MtlLine where
  | colorMaterial (name : String) (r g b : ℝ)
  | textureMaterial (name : String) (texRelPath : String)

/-- ObjWriter from main.cpp lines 48-140: the two output streams, the
1-based vertex index counter, the active usemtl cursor, the two dedup sets,
and the log of texture files written to disk. -/
structure ObjWriter where
  objLines : List ObjLine
  mtlLines : List MtlLine
  nextIndex : Nat
  currentUsemtl : String
  writtenMtls : List String
  writtenTextures : List Int
  textureWrites : List (Int × String)

/-- The freshly constructed ObjWriter (main.cpp lines 57-64): both files
truncated, the obj stream starting with the mtllib directive. -/
def initWriter : ObjWriter where
  objLines := [ObjLine.mtllib ("model.mtl")]
  mtlLines := []
  nextIndex := 1
  currentUsemtl := ""
  writtenMtls := []
  writtenTextures := []
  textureWrites := []

/-- The character filter of ObjWriter::sanitize_name (main.cpp lines 72-73):
lower case letters, upper case letters, digits, underscore, hyphen, dot. -/
def validChar (c : Char) : Bool :=
  (Char.ofNat 97 ≤ c && c ≤ Char.ofNat 122) ||
  (Char.ofNat 65 ≤ c && c ≤ Char.ofNat 90) ||
  (Char.ofNat 48 ≤ c && c ≤ Char.ofNat 57) ||
  c == Char.ofNat 95 || c == Char.ofNat 45 || c == Char.ofNat 46

/-- ObjWriter::sanitize_name (main.cpp lines 68-81): map every character
outside the allowed alphabet to an underscore; an empty result is replaced
by the fallback token. -/
def sanitize_name (s : String) : String :=
  let out := s.data.map (fun c => if validChar c then c else Char.ofNat 95)
  if out.isEmpty then "mat" else String.mk out

/-- ObjWriter::usemtl (main.cpp lines 83-88): no-op on an empty name or on
the already active name, otherwise emit the directive and move the cursor. -/
def usemtl (w : ObjWriter) (name : String) : ObjWriter :=
  if name = "" then w
  else if name = w.currentUsemtl then w
  else { w with objLines := w.objLines ++ [ObjLine.usemtlLine name],
                currentUsemtl := name }

/-- ObjWriter::ensure_color_material (main.cpp lines 90-100): dedup on the
sanitized name; on first encounter append one color newmtl block. -/
def ensure_color_material (w : ObjWriter) (raw_name : String) (r g b : ℝ) :
    ObjWriter :=
  let name := sanitize_name raw_name
  if name ∈ w.writtenMtls then w
  else { w with writtenMtls := name :: w.writtenMtls,
                mtlLines := w.mtlLines ++ [MtlLine.colorMaterial name r g b] }

/-- ObjWriter::ensure_texture_material (main.cpp lines 102-125): dedup the
newmtl block on the material name (sharing written_mtls with the color
materials), then dedup the texture file write on the texture id. The
return value of SUTextureWriterWriteTexture is ignored by the source, so
the texture write is modelled as an unconditional log entry. -/
def ensure_texture_material (w : ObjWriter) (texture_id : Int)
    (material_name texture_rel_path : String) : ObjWriter :=
  let w1 :=
    if material_name ∈ w.writtenMtls then w
    else { w with writtenMtls := material_name :: w.writtenMtls,
                  mtlLines := w.mtlLines ++
                    [MtlLine.textureMaterial material_name texture_rel_path] }
  if texture_id ∈ w1.writtenTextures then w1
  else { w1 with writtenTextures := texture_id :: w1.writtenTextures,
                 textureWrites := w1.textureWrites ++
                   [(texture_id, texture_rel_path)] }

/-- ObjWriter::add_vertex (main.cpp lines 128-133): append one vertex
record, return the previous counter value and advance it. -/
def add_vertex (w : ObjWriter) (p : Point3) (n : Vec3) (u v : ℝ) :
    ObjWriter × Nat :=
  ({ w with objLines := w.objLines ++ [ObjLine.vertex p n u v],
            nextIndex := w.nextIndex + 1 },
   w.nextIndex)

/-- ObjWriter::add_triangle (main.cpp lines 135-139): append one face
record referencing three indices. -/
def add_triangle (w : ObjWriter) (a b c : Nat) : ObjWriter :=
  { w with objLines := w.objLines ++ [ObjLine.face a b c] }

/-- The responses of the SketchUp C API for one material handle, as read
by ExportFaceOBJ: the status and value of SUMaterialGetNameLegacyBehavior
and the status and value (three byte channels) of SUMaterialGetColor. -/
structure MaterialInfo where
  nameRes : SUResult
  name : String
  colorRes : SUResult
  red : Nat
  green : Nat
  blue : Nat

/-- The collaborator responses for one face handle, bundling everything
ExportFaceOBJ (main.cpp lines 160-299) obtains from the SketchUp C API:
the optional front and back materials (present exactly when the getter
succeeds with a valid handle), SUTextureWriterLoadFace's status and the
two texture ids, SUMeshHelperCreateWithTextureWriter's status, and the
mesh buffers. The statuses of SUMeshHelperGetVertices and
SUMeshHelperGetVertexIndices are not fields because the source discards
them; the buffers hold whatever those calls left behind, and gotIndices
is the only part of the index retrieval the source inspects besides the
buffer itself. -/
structure FaceInput where
  frontMaterial : Option MaterialInfo
  backMaterial : Option MaterialInfo
  loadFaceRes : SUResult
  frontTexId : Int
  backTexId : Int
  createMeshRes : SUResult
  numVertices : Nat
  vertices : List Point3
  normalsRes : SUResult
  normals : List Vec3
  frontSTQRes : SUResult
  frontSTQ : List Point3
  gotFrontSTQ : Nat
  backSTQRes : SUResult
  backSTQ : List Point3
  gotBackSTQ : Nat
  numTriangles : Nat
  indices : List Nat
  gotIndices : Nat

/-- One front-or-back material resolution step of ExportFaceOBJ
(main.cpp lines 170-183 and 188-201): when the name getter succeeds with a
non-empty name the sanitized name becomes the candidate, and when the
color getter succeeds the color is registered under the candidate name. -/
def resolveMaterialInfo (m : MaterialInfo) (mtl_name : String)
    (w : ObjWriter) : String × ObjWriter :=
  let mtl_name2 :=
    if m.nameRes = SUResult.errorNone ∧ m.name ≠ "" then sanitize_name m.name
    else mtl_name
  let w2 :=
    if m.colorRes = SUResult.errorNone then
      ensure_color_material w mtl_name2 ((m.red : ℝ) / 255)
        ((m.green : ℝ) / 255) ((m.blue : ℝ) / 255)
    else w
  (mtl_name2, w2)

/-- The color-material resolution of ExportFaceOBJ (main.cpp lines
165-202): register the neutral gray default, try the front material, and
when the candidate is still the default try the back material. -/
def resolveFrontBack (f : FaceInput) (w0 : ObjWriter) : String × ObjWriter :=
  let w := ensure_color_material w0 ("default") 0.8 0.8 0.8
  let step1 :=
    match f.frontMaterial with
    | some m => resolveMaterialInfo m ("default") w
    | none => ("default", w)
  if step1.1 = "default" then
    match f.backMaterial with
    | some m => resolveMaterialInfo m step1.1 step1.2
    | none => step1
  else step1

/-- The texture resolution of ExportFaceOBJ (main.cpp lines 204-216):
when SUTextureWriterLoadFace succeeds and either texture id is non-zero,
the chosen id (front preferred) names a synthetic textured material that
supersedes the color candidate, and the back-texture flag is set exactly
when the front texture is absent and the back texture is present. -/
def resolveTexture (f : FaceInput) (mtl_name : String) (w : ObjWriter) :
    String × Bool × ObjWriter :=
  if f.loadFaceRes = SUResult.errorNone ∧
      (f.frontTexId ≠ 0 ∨ f.backTexId ≠ 0) then
    let chosen_tex_id := if f.frontTexId ≠ 0 then f.frontTexId else f.backTexId
    let use_back_texture := decide (f.frontTexId = 0 ∧ f.backTexId ≠ 0)
    let tex_mtl := "tex_" ++ toString chosen_tex_id
    let tex_rel := "model/" ++ tex_mtl ++ ".png"
    let w2 := ensure_texture_material w chosen_tex_id tex_mtl tex_rel
    (tex_mtl, use_back_texture, w2)
  else (mtl_name, false, w)

/-- The per-corner UV computation of ExportFaceOBJ (main.cpp lines
282-290): when the usable STQ side (back when the back-texture flag is
set, front otherwise) is available, divide s and t by q, substituting one
for a zero q; otherwise use (0, 0). -/
def cornerUV (use_back has_stq has_back_stq : Bool) (front back : Point3) :
    ℝ × ℝ :=
  if (!use_back && has_stq) || (use_back && has_back_stq) then
    let stq := if use_back then back else front
    let q := if stq.z = 0 then (1 : ℝ) else stq.z
    (stq.x / q, stq.y / q)
  else (0, 0)

/-- One corner of the triangle loop of ExportFaceOBJ (main.cpp lines
273-293): transform the position, transform and renormalize the normal,
compute the UV, and emit the vertex record. -/
def exportCorner (xf : Transform) (use_back has_stq has_back_stq : Bool)
    (vertices : List Point3) (normals : List Vec3)
    (front_stq back_stq : List Point3) (vi : Nat) (w : ObjWriter) :
    ObjWriter × Nat :=
  let p := pointTransform xf (vertices.getD vi ⟨0, 0, 0⟩)
  let n := Normalize (vecTransform xf (normals.getD vi ⟨0, 0, 0⟩))
  let uv := cornerUV use_back has_stq has_back_stq
    (front_stq.getD vi ⟨0, 0, 0⟩) (back_stq.getD vi ⟨0, 0, 0⟩)
  add_vertex w p n uv.1 uv.2

/-- One iteration of the triangle loop of ExportFaceOBJ (main.cpp lines
271-295): emit the three corners of triangle t and the face record
referencing their indices. -/
def exportTriangle (xf : Transform) (use_back has_stq has_back_stq : Bool)
    (vertices : List Point3) (normals : List Vec3)
    (front_stq back_stq : List Point3) (indices : List Nat)
    (w : ObjWriter) (t : Nat) : ObjWriter :=
  let c0 := exportCorner xf use_back has_stq has_back_stq vertices normals
    front_stq back_stq (indices.getD (t * 3) 0) w
  let c1 := exportCorner xf use_back has_stq has_back_stq vertices normals
    front_stq back_stq (indices.getD (t * 3 + 1) 0) c0.1
  let c2 := exportCorner xf use_back has_stq has_back_stq vertices normals
    front_stq back_stq (indices.getD (t * 3 + 2) 0) c1.1
  add_triangle c2.1 c0.2 c1.2 c2.2

/-- ExportFaceOBJ (main.cpp lines 160-299): resolve the color material,
the texture material and the back-texture flag, activate the material,
then obtain the triangulated mesh and emit every triangle. Mesh creation
failure propagates its code; zero vertices or zero triangles succeed with
no geometry; a normal-retrieval failure substitutes the constant (0,0,1)
normal; an index count different from the requested one yields the
generic error. The result is the final writer state and the SUResult the
C++ function returns. -/
def ExportFaceOBJ (f : FaceInput) (xf : Transform) (w0 : ObjWriter) :
    ObjWriter × SUResult :=
  let step1 := resolveFrontBack f w0
  let step2 := resolveTexture f step1.1 step1.2
  let w3 := usemtl step2.2.2 step2.1
  if f.createMeshRes ≠ SUResult.errorNone then (w3, f.createMeshRes)
  else if f.numVertices = 0 then (w3, SUResult.errorNone)
  else
    let normals :=
      if f.normalsRes ≠ SUResult.errorNone then
        List.replicate f.numVertices (⟨0, 0, 1⟩ : Vec3)
      else f.normals
    let has_stq := decide (f.frontSTQRes = SUResult.errorNone ∧
      f.gotFrontSTQ = f.numVertices)
    let has_back_stq := decide (f.backSTQRes = SUResult.errorNone ∧
      f.gotBackSTQ = f.numVertices)
    if f.numTriangles = 0 then (w3, SUResult.errorNone)
    else if f.gotIndices ≠ f.numTriangles * 3 then (w3, SUResult.errorGeneric)
    else
      ((List.range f.numTriangles).foldl
        (exportTriangle xf step2.2.1 has_stq has_back_stq f.vertices normals
          f.frontSTQ f.backSTQ f.indices) w3,
       SUResult.errorNone)

/-- One scene node (an SUEntitiesRef together with the collaborator
responses for it): its direct faces, its child groups (local transform
and contained entities) and its child component instances (local
transform and the entities of the instance's definition). -/
inductive Node where
  | mk (faces : List FaceInput) (groups : List (Transform × Node))
       (instances : List (Transform × Node))

mutual

/-- ExportEntitiesOBJ (main.cpp lines 404-466): export every direct face
with the inherited transform, then recurse into every group and every
component instance with the combined transform, aborting on the first
error. -/
def ExportEntitiesOBJ : Node → Transform → ObjWriter → ObjWriter × SUResult
  | Node.mk faces groups insts, parent_xf, w =>
    match exportFaces faces parent_xf w with
    | (w1, SUResult.errorNone) =>
      match exportChildren groups parent_xf w1 with
      | (w2, SUResult.errorNone) => exportChildren insts parent_xf w2
      | r => r
    | r => r

/-- The face loop of ExportEntitiesOBJ (main.cpp lines 410-420): export
each face in order, returning the first non-success result. -/
def exportFaces : List FaceInput → Transform → ObjWriter →
    ObjWriter × SUResult
  | [], _, w => (w, SUResult.errorNone)
  | f :: rest, xf, w =>
    match ExportFaceOBJ f xf w with
    | (w1, SUResult.errorNone) => exportFaces rest xf w1
    | r => r

/-- The group and instance loops of ExportEntitiesOBJ (main.cpp lines
422-463): compose the parent transform with the child's local transform
and recurse into the child's entities, returning the first non-success
result. -/
def exportChildren : List (Transform × Node) → Transform → ObjWriter →
    ObjWriter × SUResult
  | [], _, w => (w, SUResult.errorNone)
  | (local_xf, child) :: rest, parent_xf, w =>
    let combined := transformMultiply parent_xf local_xf
    match ExportEntitiesOBJ child combined w with
    | (w1, SUResult.errorNone) => exportChildren rest parent_xf w1
    | r => r

end

/-- The outcome of CLI parsing (main.cpp lines 310-340): either an
immediate exit (0 after help, 2 after an unknown argument) or the parsed
input path, output directory and format. -/
inductive ParsedArgs where
  | exit (code : Nat)
  | config (input outputDir format : String)
  deriving DecidableEq

/-- The first byte of a C string: argv[k|[0| reads the terminating null
character when the argument is empty. -/
def headByte (s : String) : Char :=
  s.data.headD (Char.ofNat 0)

/-- The flag loop of main (main.cpp lines 323-339): a value flag consumes
the following argument when one exists, help exits with code 0, and
anything else (including a value flag without a following argument) is an
unknown argument exiting with code 2. -/
def parseFlags : List String → String → String → String → ParsedArgs
  | [], i, o, f => ParsedArgs.config i o f
  | [a], _, _, _ =>
    if a = "--help" ∨ a = "-h" then ParsedArgs.exit 0 else ParsedArgs.exit 2
  | a :: b :: rest, i, o, f =>
    if a = "--input" ∨ a = "-i" then parseFlags rest b o f
    else if a = "--outputDir" ∨ a = "-o" then parseFlags rest i b f
    else if a = "--format" ∨ a = "-f" then parseFlags rest i o b
    else if a = "--help" ∨ a = "-h" then ParsedArgs.exit 0
    else ParsedArgs.exit 2

/-- Argument parsing of main (main.cpp lines 310-340), over the argument
list after the program name: the positional form applies when at least
two arguments are present and neither starts with a dash, with the third
dash-free argument overriding the default obj format; otherwise the flag
loop runs over all arguments. -/
def parseArgs (args : List String) : ParsedArgs :=
  match args with
  | a1 :: a2 :: rest =>
    if headByte a1 ≠ Char.ofNat 45 ∧ headByte a2 ≠ Char.ofNat 45 then
      let format :=
        match rest with
        | a3 :: _ => if headByte a3 ≠ Char.ofNat 45 then a3 else "obj"
        | [] => "obj"
      ParsedArgs.config a1 a2 format
    else parseFlags args "" "" ("obj")
  | _ => parseFlags args "" "" ("obj")

/-- One filesystem effect of main: creating a directory or creating
(truncating) a file. -/
inductive Effect where
  | createDir (path : String)
  | createFile (path : String)
  deriving DecidableEq

/-- The environment of one converter run: whether the two output streams
open successfully, the result of SUModelCreateFromFileWithStatus, and the
scene read from the loaded model. -/
structure World where
  writerOk : Bool
  loadRes : SUResult
  scene : Node

/-- main (main.cpp lines 310-402) as a function of the argument list and
the world, returning the process exit code and the list of filesystem
effects in order: argument errors, an invalid format and the unsupported
dae format exit with code 2 before any directory or file is created; then
the output directories are created and the two output files opened, a
writer or load failure exits with code 1, and otherwise the export runs
from the identity transform, exiting 1 on an export error and 0 on
success. Texture files written during the export are appended as file
effects under the output directory. Diagnostics on stderr are not
modelled. -/
def mainRun (world : World) (args : List String) : Nat × List Effect :=
  match parseArgs args with
  | ParsedArgs.exit c => (c, [])
  | ParsedArgs.config input outputDir format =>
    if input = "" ∨ outputDir = "" then (2, [])
    else if ¬(format = "obj" ∨ format = "dae") then (2, [])
    else if format = "dae" then (2, [])
    else
      let effects := [Effect.createDir outputDir,
        Effect.createDir (outputDir ++ "/model"),
        Effect.createFile (outputDir ++ "/model.obj"),
        Effect.createFile (outputDir ++ "/model.mtl")]
      if world.writerOk = false then (1, effects)
      else if world.loadRes ≠ SUResult.errorNone then (1, effects)
      else
        let run := ExportEntitiesOBJ world.scene identityTransform initWriter
        ((if run.2 ≠ SUResult.errorNone then 1 else 0),
         effects ++ run.1.textureWrites.map
           (fun tp => Effect.createFile (outputDir ++ "/" ++ tp.2)))

/-- Recognizer for usemtl directives in the obj stream. -/
def isUsemtlLine : ObjLine → Bool
  | ObjLine.usemtlLine _ => true
  | _ => false

/-- The number of usemtl directives in an obj stream. -/
def countUsemtl (ls : List ObjLine) : Nat :=
  (ls.filter isUsemtlLine).length

/-- A face whose collaborator calls all fail and whose buffers are empty:
the least interesting face input, used to instantiate universally
quantified face arguments at concrete values. -/
def emptyFace : FaceInput where
  frontMaterial := none
  backMaterial := none
  loadFaceRes := SUResult.errorGeneric
  frontTexId := 0
  backTexId := 0
  createMeshRes := SUResult.errorGeneric
  numVertices := 0
  vertices := []
  normalsRes := SUResult.errorGeneric
  normals := []
  frontSTQRes := SUResult.errorGeneric
  frontSTQ := []
  gotFrontSTQ := 0
  backSTQRes := SUResult.errorGeneric
  backSTQ := []
  gotBackSTQ := 0
  numTriangles := 0
  indices := []
  gotIndices := 0

/-- A face whose front material is present, resolves to the empty name and
carries the pure red color (255, 0, 0); no back material, no texture, and
an empty mesh. -/
def faceRedEmptyName : FaceInput :=
  { emptyFace with
      frontMaterial := some
        { nameRes := SUResult.errorNone, name := "",
          colorRes := SUResult.errorNone, red := 255, green := 0, blue := 0 },
      createMeshRes := SUResult.errorNone }

/-- A face whose mesh creation succeeds with one triangle but whose
normal retrieval fails with the generic error. -/
def faceBadNormals : FaceInput :=
  { emptyFace with
      createMeshRes := SUResult.errorNone
      numVertices := 3
      vertices := [⟨0, 0, 0⟩, ⟨1, 0, 0⟩, ⟨0, 1, 0⟩]
      normalsRes := SUResult.errorGeneric
      numTriangles := 1
      indices := [0, 1, 2]
      gotIndices := 3 }

end

/-- C6, counterexample: the all-invalid input "#" sanitizes to "_", not to
the fallback token "mat" that the claim demands for all-invalid inputs. -/
theorem c6_counterexample :
    sanitize_name ("#") = "_" ∧ sanitize_name ("#") ≠ "mat" := by
  decide

/-- C6 (amended): the name sanitizer is a total pure function whose output
is a non-empty string over the alphabet A-Z, a-z, 0-9, underscore, hyphen
and dot; every character outside that alphabet is mapped to an underscore,
and only the empty input (not an all-invalid one, which maps to
underscores) yields the fallback token "mat". -/
theorem c6_sanitizer_total (s : String) :
    sanitize_name s ≠ "" ∧
    (∀ c ∈ (sanitize_name s).data, validChar c = true) ∧
    (s = "" → sanitize_name s = "mat") ∧
    (s ≠ "" → sanitize_name s =
      String.mk (s.data.map (fun c => if validChar c then c else Char.ofNat 95))) := by
  obtain ⟨data⟩ := s
  cases data with
  | nil =>
    refine ⟨by decide, by decide, fun _ => rfl, fun h => absurd (by decide) h⟩
  | cons d ds =>
    refine ⟨?_, ?_, ?_, fun _ => by simp [sanitize_name]⟩
    · simp [sanitize_name, String.ext_iff]
    · intro c hc
      rw [show (sanitize_name ⟨d :: ds⟩).data =
          (d :: ds).map (fun c => if validChar c then c else Char.ofNat 95) from by
        simp [sanitize_name]] at hc
      obtain ⟨a, _, rfl⟩ := List.mem_map.mp hc
      by_cases h : validChar a
      · rw [if_pos h]; exact h
      · rw [if_neg h]; decide
    · intro h
      exact absurd h (by simp [String.ext_iff])

/-- C6 witness: the sanitizer applied to a concrete mixed input. -/
theorem c6_witness : sanitize_name ("a b!") = "a_b_" := by
  have h := (c6_sanitizer_total ("a b!")).2.2.2 (by decide)
  rw [h]; decide

/-- C7: the usemtl operation is a no-op on the empty name and on the
already-active name; on a new non-empty name it appends exactly one
directive and moves the cursor, so three consecutive activations of one
material emit exactly one usemtl directive. -/
theorem c7_usemtl_dedup (w : ObjWriter) (n : String) :
    usemtl w "" = w ∧
    (n = w.currentUsemtl → usemtl w n = w) ∧
    (n ≠ "" → n ≠ w.currentUsemtl →
      (usemtl w n).objLines = w.objLines ++ [ObjLine.usemtlLine n] ∧
      (usemtl w n).currentUsemtl = n) ∧
    (n ≠ "" → n ≠ w.currentUsemtl →
      countUsemtl (usemtl (usemtl (usemtl w n) n) n).objLines =
        countUsemtl w.objLines + 1) := by
  refine ⟨by simp [usemtl], ?_, ?_, ?_⟩
  · intro h
    unfold usemtl
    by_cases h1 : n = ""
    · rw [if_pos h1]
    · rw [if_neg h1, if_pos h]
  · intro h1 h2
    unfold usemtl
    rw [if_neg h1, if_neg h2]
    exact ⟨rfl, rfl⟩
  · intro h1 h2
    have e1 : usemtl w n =
        { w with objLines := w.objLines ++ [ObjLine.usemtlLine n],
                 currentUsemtl := n } := by
      unfold usemtl; rw [if_neg h1, if_neg h2]
    have e2 : ∀ w2 : ObjWriter, w2.currentUsemtl = n → usemtl w2 n = w2 := by
      intro w2 hcur
      unfold usemtl
      rw [if_neg h1, if_pos hcur.symm]
    rw [e1]
    rw [e2 { w with objLines := w.objLines ++ [ObjLine.usemtlLine n],
                    currentUsemtl := n } rfl]
    rw [e2 { w with objLines := w.objLines ++ [ObjLine.usemtlLine n],
                    currentUsemtl := n } rfl]
    simp [countUsemtl, List.filter_append, isUsemtlLine]

/-- C7 witness: three consecutive activations of one concrete material on
the fresh writer emit exactly one usemtl directive. -/
theorem c7_witness :
    countUsemtl (usemtl (usemtl (usemtl initWriter ("red")) ("red")) ("red")).objLines =
      countUsemtl initWriter.objLines + 1 :=
  (c7_usemtl_dedup initWriter ("red")).2.2.2 (by decide) (by decide)

/-- C5: registry registration is idempotent. Calling ensure_color_material
twice with names of equal sanitization on a writer that has not yet seen
that key leaves exactly one new color block in the material file (the
second call changes nothing); calling ensure_texture_material twice with
one texture id writes the texture file exactly once; and a registration
whose key was already encountered changes nothing at all. -/
theorem c5_registry_idempotent (w : ObjWriter) (name name2 : String)
    (r g b r2 g2 b2 : ℝ) (tid : Int) (mn mn2 p p2 : String)
    (hsame : sanitize_name name2 = sanitize_name name)
    (hfresh : sanitize_name name ∉ w.writtenMtls)
    (hid : tid ∉ w.writtenTextures) :
    ensure_color_material (ensure_color_material w name r g b) name2 r2 g2 b2 =
      ensure_color_material w name r g b ∧
    (ensure_color_material w name r g b).mtlLines =
      w.mtlLines ++ [MtlLine.colorMaterial (sanitize_name name) r g b] ∧
    (ensure_texture_material (ensure_texture_material w tid mn p)
        tid mn2 p2).textureWrites =
      (ensure_texture_material w tid mn p).textureWrites ∧
    (ensure_texture_material w tid mn p).textureWrites =
      w.textureWrites ++ [(tid, p)] ∧
    (∀ (w2 : ObjWriter) (n : String) (r3 g3 b3 : ℝ),
      sanitize_name n ∈ w2.writtenMtls →
      ensure_color_material w2 n r3 g3 b3 = w2) := by
  have seen : ∀ (w2 : ObjWriter) (n : String) (r3 g3 b3 : ℝ),
      sanitize_name n ∈ w2.writtenMtls →
      ensure_color_material w2 n r3 g3 b3 = w2 := by
    intro w2 n r3 g3 b3 hmem
    unfold ensure_color_material
    rw [if_pos hmem]
  have e1 : ensure_color_material w name r g b =
      { w with writtenMtls := sanitize_name name :: w.writtenMtls,
               mtlLines := w.mtlLines ++
                 [MtlLine.colorMaterial (sanitize_name name) r g b] } := by
    unfold ensure_color_material
    rw [if_neg hfresh]
  refine ⟨?_, by rw [e1], ?_, ?_, seen⟩
  · refine seen _ name2 r2 g2 b2 ?_
    rw [e1, hsame]
    exact List.mem_cons_self _ _
  · by_cases hm : mn ∈ w.writtenMtls <;>
      by_cases hm2 : mn2 ∈ (ensure_texture_material w tid mn p).writtenMtls <;>
      simp [ensure_texture_material, hm, hid] at hm2 ⊢ <;>
      simp [hm2]
  · by_cases hm : mn ∈ w.writtenMtls <;> simp [ensure_texture_material, hm, hid]

/-- C5 witness: the idempotence facts applied on the fresh writer with a
concrete name and a concrete texture id. -/
theorem c5_witness :
    ensure_color_material
        (ensure_color_material initWriter ("red") 1 0 0) ("red") 0 1 0 =
      ensure_color_material initWriter ("red") 1 0 0 ∧
    (ensure_texture_material
        (ensure_texture_material initWriter 7 ("tex_7") ("model/tex_7.png"))
        7 ("tex_7") ("model/tex_7.png")).textureWrites =
      (ensure_texture_material initWriter 7 ("tex_7")
        ("model/tex_7.png")).textureWrites := by
  have h := c5_registry_idempotent initWriter ("red") ("red") 1 0 0 0 1 0 7
    ("tex_7") ("tex_7") ("model/tex_7.png") ("model/tex_7.png")
    rfl (by decide) (by decide)
  exact ⟨h.1, h.2.2.1⟩

/-- C9: color and texture materials share the written_mtls dedup set.
Starting from a writer that has seen neither the key nor the texture id,
registering a color material under a key and then a texture material under
the same key writes only the color block (the texture registration adds no
material block but still writes the texture file); in the opposite order
only the texture block is written and the later color registration adds
nothing. -/
theorem c9_shared_key_space (w : ObjWriter) (raw : String) (r g b : ℝ)
    (tid : Int) (relPath : String)
    (hkey : sanitize_name raw ∉ w.writtenMtls)
    (hid : tid ∉ w.writtenTextures) :
    (ensure_texture_material (ensure_color_material w raw r g b) tid
        (sanitize_name raw) relPath).mtlLines =
      w.mtlLines ++ [MtlLine.colorMaterial (sanitize_name raw) r g b] ∧
    (ensure_texture_material (ensure_color_material w raw r g b) tid
        (sanitize_name raw) relPath).textureWrites =
      w.textureWrites ++ [(tid, relPath)] ∧
    (ensure_color_material (ensure_texture_material w tid
        (sanitize_name raw) relPath) raw r g b).mtlLines =
      w.mtlLines ++ [MtlLine.textureMaterial (sanitize_name raw) relPath] ∧
    (ensure_color_material (ensure_texture_material w tid
        (sanitize_name raw) relPath) raw r g b).textureWrites =
      w.textureWrites ++ [(tid, relPath)] := by
  have e1 : ensure_color_material w raw r g b =
      { w with writtenMtls := sanitize_name raw :: w.writtenMtls,
               mtlLines := w.mtlLines ++
                 [MtlLine.colorMaterial (sanitize_name raw) r g b] } := by
    unfold ensure_color_material
    rw [if_neg hkey]
  refine ⟨?_, ?_, ?_, ?_⟩
  · rw [e1]
    simp [ensure_texture_material, hid]
  · rw [e1]
    simp [ensure_texture_material, hid]
  · simp [ensure_texture_material, ensure_color_material, hkey, hid]
  · simp [ensure_texture_material, ensure_color_material, hkey, hid]

/-- C9 witness: the shared-key facts applied on the fresh writer with the
concrete key tex_5 and texture id 5. -/
theorem c9_witness :
    (ensure_texture_material
        (ensure_color_material initWriter ("tex_5") 1 0 0) 5 ("tex_5")
        ("model/tex_5.png")).mtlLines =
      initWriter.mtlLines ++ [MtlLine.colorMaterial ("tex_5") 1 0 0] := by
  have h := c9_shared_key_space initWriter ("tex_5") 1 0 0 5
    ("model/tex_5.png") (by decide) (by decide)
  have hs : sanitize_name ("tex_5") = "tex_5" := by decide
  simpa [hs] using h.1

/-- Multiplying the identity transform on the left is the identity. -/
theorem transformMultiply_identity_left (t : Transform) :
    transformMultiply identityTransform t = t := by
  ext <;> simp [transformMultiply, identityTransform]

/-- A node holding exactly one face exports exactly as the face exporter
does on that face with the inherited transform. -/
theorem exportEntities_single_face (f : FaceInput) (xf : Transform)
    (w : ObjWriter) :
    ExportEntitiesOBJ (Node.mk [f] [] []) xf w = ExportFaceOBJ f xf w := by
  rcases h : ExportFaceOBJ f xf w with ⟨w1, r⟩
  cases r <;> simp [ExportEntitiesOBJ, exportFaces, exportChildren, h]

/-- A node holding exactly one group recurses into the group's entities
with the combined transform parent-times-local. -/
theorem exportEntities_single_group (t : Transform) (child : Node)
    (xf : Transform) (w : ObjWriter) :
    ExportEntitiesOBJ (Node.mk [] [(t, child)] []) xf w =
      ExportEntitiesOBJ child (transformMultiply xf t) w := by
  rcases h : ExportEntitiesOBJ child (transformMultiply xf t) w with ⟨w1, r⟩
  cases r <;> simp [ExportEntitiesOBJ, exportFaces, exportChildren, h]

/-- A node holding exactly one component instance recurses into the
definition's entities with the combined transform parent-times-local. -/
theorem exportEntities_single_inst (t : Transform) (child : Node)
    (xf : Transform) (w : ObjWriter) :
    ExportEntitiesOBJ (Node.mk [] [] [(t, child)]) xf w =
      ExportEntitiesOBJ child (transformMultiply xf t) w := by
  rcases h : ExportEntitiesOBJ child (transformMultiply xf t) w with ⟨w1, r⟩
  cases r <;> simp [ExportEntitiesOBJ, exportFaces, exportChildren, h]

/-- C4: exporting a face nested inside two groups carrying transforms T1
(outer) and T2 (inner) produces exactly the output of exporting the same
face directly with the single composed transform T1 times T2; every
traversal level (groups and instances alike) computes its child transform
as parent composed with local; and on affine transforms the composed
matrix transforms each point exactly as applying T2 and then T1 does. -/
theorem c4_transform_composition (T1 T2 : Transform) (f : FaceInput)
    (w : ObjWriter) :
    ExportEntitiesOBJ
        (Node.mk [] [(T1, Node.mk [] [(T2, Node.mk [f] [] [])] [])] [])
        identityTransform w =
      ExportFaceOBJ f (transformMultiply T1 T2) w ∧
    (∀ (xf t : Transform) (child : Node) (w2 : ObjWriter),
      ExportEntitiesOBJ (Node.mk [] [(t, child)] []) xf w2 =
        ExportEntitiesOBJ child (transformMultiply xf t) w2 ∧
      ExportEntitiesOBJ (Node.mk [] [] [(t, child)]) xf w2 =
        ExportEntitiesOBJ child (transformMultiply xf t) w2) ∧
    (isAffine T2 → ∀ p : Point3,
      pointTransform (transformMultiply T1 T2) p =
        pointTransform T1 (pointTransform T2 p)) := by
  refine ⟨?_, fun xf t child w2 =>
    ⟨exportEntities_single_group t child xf w2,
     exportEntities_single_inst t child xf w2⟩, ?_⟩
  · rw [exportEntities_single_group, exportEntities_single_group,
      exportEntities_single_face, transformMultiply_identity_left]
  · rintro ⟨h3, h7, h11, h15⟩ p
    ext <;> simp [pointTransform, transformMultiply, h3, h7, h11, h15] <;>
      ring

/-- C4 witness: the composition facts applied to a concrete translation,
a concrete affine scaling and a concrete point. -/
theorem c4_witness :
    isAffine ⟨2, 0, 0, 0, 0, 2, 0, 0, 0, 0, 2, 0, 0, 0, 0, 1⟩ ∧
    pointTransform
        (transformMultiply ⟨1, 0, 0, 0, 0, 1, 0, 0, 0, 0, 1, 0, 10, 0, 0, 1⟩
          ⟨2, 0, 0, 0, 0, 2, 0, 0, 0, 0, 2, 0, 0, 0, 0, 1⟩) ⟨1, 2, 3⟩ =
      pointTransform ⟨1, 0, 0, 0, 0, 1, 0, 0, 0, 0, 1, 0, 10, 0, 0, 1⟩
        (pointTransform ⟨2, 0, 0, 0, 0, 2, 0, 0, 0, 0, 2, 0, 0, 0, 0, 1⟩
          ⟨1, 2, 3⟩) := by
  have ha : isAffine
      (⟨2, 0, 0, 0, 0, 2, 0, 0, 0, 0, 2, 0, 0, 0, 0, 1⟩ : Transform) :=
    ⟨rfl, rfl, rfl, rfl⟩
  exact ⟨ha,
    (c4_transform_composition ⟨1, 0, 0, 0, 0, 1, 0, 0, 0, 0, 1, 0, 10, 0, 0, 1⟩
      ⟨2, 0, 0, 0, 0, 2, 0, 0, 0, 0, 2, 0, 0, 0, 0, 1⟩ emptyFace
      initWriter).2.2 ha ⟨1, 2, 3⟩⟩

/-- C1: the per-corner UV computation of the face exporter. With the
back-texture flag set and back coordinates available the UV is the back
(s/q, t/q); with the flag unset and front coordinates available it is the
front (s/q, t/q); when the selected side is unavailable it is (0, 0). The
divisor substitutes one for a zero q, so it is never zero and a q = 0
coordinate yields exactly (s, t). The back-texture flag produced by the
texture resolution is set exactly when loading succeeded, the front
texture is absent and the back texture is present. Every emitted corner
record carries the UV computed this way. -/
theorem c1_uv_computation (ub hs hbs : Bool) (front back : Point3)
    (f : FaceInput) (mn : String) (w : ObjWriter) :
    (ub = true → hbs = true → cornerUV ub hs hbs front back =
      (back.x / (if back.z = 0 then 1 else back.z),
       back.y / (if back.z = 0 then 1 else back.z))) ∧
    (ub = false → hs = true → cornerUV ub hs hbs front back =
      (front.x / (if front.z = 0 then 1 else front.z),
       front.y / (if front.z = 0 then 1 else front.z))) ∧
    (ub = true → hbs = false → cornerUV ub hs hbs front back = (0, 0)) ∧
    (ub = false → hs = false → cornerUV ub hs hbs front back = (0, 0)) ∧
    ((if back.z = 0 then (1 : ℝ) else back.z) ≠ 0 ∧
     (if front.z = 0 then (1 : ℝ) else front.z) ≠ 0) ∧
    (back.z = 0 → ub = true → hbs = true →
      cornerUV ub hs hbs front back = (back.x, back.y)) ∧
    (front.z = 0 → ub = false → hs = true →
      cornerUV ub hs hbs front back = (front.x, front.y)) ∧
    ((resolveTexture f mn w).2.1 = true ↔
      f.loadFaceRes = SUResult.errorNone ∧ f.frontTexId = 0 ∧
        f.backTexId ≠ 0) ∧
    (∀ (xf : Transform) (vs : List Point3) (ns : List Vec3)
       (fs bs : List Point3) (vi : Nat) (w2 : ObjWriter),
      (exportCorner xf ub hs hbs vs ns fs bs vi w2).1.objLines =
        w2.objLines ++ [ObjLine.vertex
          (pointTransform xf (vs.getD vi ⟨0, 0, 0⟩))
          (Normalize (vecTransform xf (ns.getD vi ⟨0, 0, 0⟩)))
          (cornerUV ub hs hbs (fs.getD vi ⟨0, 0, 0⟩)
            (bs.getD vi ⟨0, 0, 0⟩)).1
          (cornerUV ub hs hbs (fs.getD vi ⟨0, 0, 0⟩)
            (bs.getD vi ⟨0, 0, 0⟩)).2]) := by
  refine ⟨?_, ?_, ?_, ?_, ⟨?_, ?_⟩, ?_, ?_, ?_, ?_⟩
  · intro h1 h2; subst h1; subst h2; simp [cornerUV]
  · intro h1 h2; subst h1; subst h2; simp [cornerUV]
  · intro h1 h2; subst h1; subst h2; simp [cornerUV]
  · intro h1 h2; subst h1; subst h2; simp [cornerUV]
  · split_ifs with h
    · exact one_ne_zero
    · exact h
  · split_ifs with h
    · exact one_ne_zero
    · exact h
  · intro hz h1 h2; subst h1; subst h2; simp [cornerUV, hz]
  · intro hz h1 h2; subst h1; subst h2; simp [cornerUV, hz]
  · unfold resolveTexture
    by_cases hcond : f.loadFaceRes = SUResult.errorNone ∧
        (f.frontTexId ≠ 0 ∨ f.backTexId ≠ 0)
    · rw [if_pos hcond]
      simp only [decide_eq_true_eq]
      exact ⟨fun h => ⟨hcond.1, h⟩, fun h => ⟨h.2.1, h.2.2⟩⟩
    · rw [if_neg hcond]
      simp only [Bool.false_eq_true, false_iff]
      rintro ⟨hl, _, hb⟩
      exact hcond ⟨hl, Or.inr hb⟩
  · intro xf vs ns fs bs vi w2
    rfl

/-- C1 witness: a back projected coordinate with q = 0 yields exactly
(s, t) through the q = 1 substitution. -/
theorem c1_witness : cornerUV true true true ⟨5, 6, 7⟩ ⟨1, 2, 0⟩ = (1, 2) :=
  (c1_uv_computation true true true ⟨5, 6, 7⟩ ⟨1, 2, 0⟩ emptyFace ("")
    initWriter).2.2.2.2.2.1 rfl rfl rfl

/-- C10: normal renormalization is total. Normalize guards its division
with a strict positivity test on the length, so a vector of squared
length zero is returned unchanged, and a triangle corner whose
transformed normal is the zero vector is emitted with the normal record
(0, 0, 0) instead of failing. -/
theorem c10_normalize_total :
    (∀ v : Vec3, v.x * v.x + v.y * v.y + v.z * v.z = 0 → Normalize v = v) ∧
    (∀ (xf : Transform) (ub hs hbs : Bool) (vs : List Point3)
       (ns : List Vec3) (fs bs : List Point3) (vi : Nat) (w : ObjWriter),
      vecTransform xf (ns.getD vi ⟨0, 0, 0⟩) = ⟨0, 0, 0⟩ →
      ∃ p u v2, (exportCorner xf ub hs hbs vs ns fs bs vi w).1.objLines =
        w.objLines ++ [ObjLine.vertex p ⟨0, 0, 0⟩ u v2]) := by
  have ha : ∀ v : Vec3, v.x * v.x + v.y * v.y + v.z * v.z = 0 →
      Normalize v = v := by
    intro v h
    simp [Normalize, h]
  refine ⟨ha, ?_⟩
  intro xf ub hs hbs vs ns fs bs vi w hz
  refine ⟨pointTransform xf (vs.getD vi ⟨0, 0, 0⟩),
    (cornerUV ub hs hbs (fs.getD vi ⟨0, 0, 0⟩) (bs.getD vi ⟨0, 0, 0⟩)).1,
    (cornerUV ub hs hbs (fs.getD vi ⟨0, 0, 0⟩) (bs.getD vi ⟨0, 0, 0⟩)).2, ?_⟩
  have base : (exportCorner xf ub hs hbs vs ns fs bs vi w).1.objLines =
      w.objLines ++ [ObjLine.vertex
        (pointTransform xf (vs.getD vi ⟨0, 0, 0⟩))
        (Normalize (vecTransform xf (ns.getD vi ⟨0, 0, 0⟩)))
        (cornerUV ub hs hbs (fs.getD vi ⟨0, 0, 0⟩) (bs.getD vi ⟨0, 0, 0⟩)).1
        (cornerUV ub hs hbs (fs.getD vi ⟨0, 0, 0⟩)
          (bs.getD vi ⟨0, 0, 0⟩)).2] := rfl
  rw [base, hz, ha ⟨0, 0, 0⟩ (by norm_num)]

/-- C10 witness: a corner whose stored normal is already the zero vector
is emitted with the (0, 0, 0) normal record under the identity transform. -/
theorem c10_witness :
    ∃ p u v2, (exportCorner identityTransform false false false []
        [⟨0, 0, 0⟩] [] [] 0 initWriter).1.objLines =
      initWriter.objLines ++ [ObjLine.vertex p ⟨0, 0, 0⟩ u v2] :=
  c10_normalize_total.2 identityTransform false false false [] [⟨0, 0, 0⟩]
    [] [] 0 initWriter (by ext <;> simp [vecTransform, identityTransform])

/-- The usemtl operation never touches the material file stream. -/
theorem usemtl_mtlLines (w : ObjWriter) (n : String) :
    (usemtl w n).mtlLines = w.mtlLines := by
  unfold usemtl
  split_ifs <;> rfl

/-- The triangle loop never touches the material file stream. -/
theorem foldl_exportTriangle_mtlLines (xf : Transform) (ub hs hbs : Bool)
    (vs : List Point3) (ns : List Vec3) (fs bs : List Point3)
    (ids : List Nat) (ts : List Nat) (w : ObjWriter) :
    (ts.foldl (exportTriangle xf ub hs hbs vs ns fs bs ids) w).mtlLines =
      w.mtlLines := by
  induction ts generalizing w with
  | nil => rfl
  | cons t ts ih =>
    rw [List.foldl_cons]
    exact (ih _).trans rfl

/-- The material file stream produced by one face export is exactly the
one left behind by material and texture resolution: the mesh phase never
writes to it. -/
theorem ExportFaceOBJ_mtlLines (f : FaceInput) (xf : Transform)
    (w0 : ObjWriter) :
    (ExportFaceOBJ f xf w0).1.mtlLines =
      (resolveTexture f (resolveFrontBack f w0).1
        (resolveFrontBack f w0).2).2.2.mtlLines := by
  unfold ExportFaceOBJ
  split_ifs <;> simp [usemtl_mtlLines, foldl_exportTriangle_mtlLines]

/-- C2, counterexample: a face whose front material is present with an
empty name and the pure red color (255, 0, 0) leaves only the neutral
gray default block in the material file; the front material's color is
never written under the "default" name (or any other), because "default"
was already registered with the gray color at the start of the face
export. -/
theorem c2_counterexample :
    (ExportFaceOBJ faceRedEmptyName identityTransform initWriter).1.mtlLines =
      [MtlLine.colorMaterial ("default") 0.8 0.8 0.8] ∧
    MtlLine.colorMaterial ("default") ((255 : ℝ) / 255) (0 / 255) (0 / 255) ∉
      (ExportFaceOBJ faceRedEmptyName identityTransform
        initWriter).1.mtlLines := by
  have h : (ExportFaceOBJ faceRedEmptyName identityTransform
      initWriter).1.mtlLines =
      [MtlLine.colorMaterial ("default") 0.8 0.8 0.8] := by
    rw [ExportFaceOBJ_mtlLines]
    rfl
  refine ⟨h, ?_⟩
  rw [h]
  simp only [List.mem_singleton, MtlLine.colorMaterial.injEq, not_and]
  intro _ h255
  norm_num at h255

/-- C2 (amended): when a face's front material is present but its name
resolves to empty (and no back material or texture supersedes it), the
face exporter falls back to the material name "default"; the call
registering the front color under "default" writes nothing, because
"default" was already registered with the neutral gray at the start of
the face export, so the material file gains exactly the gray default
block. -/
theorem c2_default_fallback (f : FaceInput) (m : MaterialInfo)
    (xf : Transform) (w0 : ObjWriter)
    (hfm : f.frontMaterial = some m) (hname : m.name = "")
    (hbm : f.backMaterial = none)
    (hnotex : f.loadFaceRes ≠ SUResult.errorNone ∨
      (f.frontTexId = 0 ∧ f.backTexId = 0))
    (hfresh : "default" ∉ w0.writtenMtls) :
    (resolveFrontBack f w0).1 = "default" ∧
    (ExportFaceOBJ f xf w0).1.mtlLines =
      w0.mtlLines ++ [MtlLine.colorMaterial ("default") 0.8 0.8 0.8] := by
  have hsan : sanitize_name ("default") = "default" := by decide
  have hW : ensure_color_material w0 ("default") 0.8 0.8 0.8 =
      { w0 with writtenMtls := "default" :: w0.writtenMtls,
                mtlLines := w0.mtlLines ++
                  [MtlLine.colorMaterial ("default") 0.8 0.8 0.8] } := by
    unfold ensure_color_material
    rw [hsan, if_neg hfresh]
  have hseen : ∀ (w2 : ObjWriter) (r g b : ℝ), "default" ∈ w2.writtenMtls →
      ensure_color_material w2 ("default") r g b = w2 := by
    intro w2 r g b hm
    unfold ensure_color_material
    rw [hsan, if_pos hm]
  have hstep1 : ∀ w2 : ObjWriter, "default" ∈ w2.writtenMtls →
      resolveMaterialInfo m ("default") w2 = ("default", w2) := by
    intro w2 hm
    unfold resolveMaterialInfo
    rw [hname]
    simp only [ne_eq, not_true_eq_false, and_false, if_false]
    by_cases hc : m.colorRes = SUResult.errorNone
    · rw [if_pos hc, hseen w2 _ _ _ hm]
    · rw [if_neg hc]
  have hrfb : resolveFrontBack f w0 = ("default",
      { w0 with writtenMtls := "default" :: w0.writtenMtls,
                mtlLines := w0.mtlLines ++
                  [MtlLine.colorMaterial ("default") 0.8 0.8 0.8] }) := by
    simp only [resolveFrontBack, hfm, hbm, hW]
    rw [hstep1 _ (List.mem_cons_self _ _)]
    simp
  have hcond : ¬(f.loadFaceRes = SUResult.errorNone ∧
      (f.frontTexId ≠ 0 ∨ f.backTexId ≠ 0)) := by
    rcases hnotex with h | ⟨h1, h2⟩
    · exact fun hc => h hc.1
    · rintro ⟨_, hd⟩
      rcases hd with hd | hd
      · exact hd h1
      · exact hd h2
  have htex : ∀ (n : String) (w2 : ObjWriter),
      resolveTexture f n w2 = (n, false, w2) := by
    intro n w2
    unfold resolveTexture
    rw [if_neg hcond]
  refine ⟨by rw [hrfb], ?_⟩
  rw [ExportFaceOBJ_mtlLines]
  simp only [hrfb, htex]

/-- C2 witness: the amended fallback facts applied to the concrete red
face with an empty material name on the fresh writer. -/
theorem c2_witness :
    (resolveFrontBack faceRedEmptyName initWriter).1 = "default" ∧
    (ExportFaceOBJ faceRedEmptyName identityTransform
        initWriter).1.mtlLines =
      initWriter.mtlLines ++
        [MtlLine.colorMaterial ("default") 0.8 0.8 0.8] :=
  c2_default_fallback faceRedEmptyName
    ⟨SUResult.errorNone, "", SUResult.errorNone, 255, 0, 0⟩
    identityTransform initWriter rfl rfl rfl (Or.inl (by decide)) (by decide)

/-- C3, counterexample: a face whose normal retrieval fails with the
generic error is nevertheless exported successfully — the error is not
propagated to the caller, contradicting the claim that any error from
normal retrieval unwinds the traversal verbatim. -/
theorem c3_counterexample :
    faceBadNormals.normalsRes = SUResult.errorGeneric ∧
    (ExportEntitiesOBJ (Node.mk [faceBadNormals] [] [])
        identityTransform initWriter).2 = SUResult.errorNone := by
  constructor
  · rfl
  · rw [exportEntities_single_face]
    rfl

/-- C3 (amended): a mesh-creation error during face export immediately
unwinds the entire recursive traversal (remaining faces, groups and
instances of the node are skipped, with no partial-face and no
partial-node recovery) and is propagated verbatim; a normal-retrieval
error is swallowed (the substituted normals keep the export successful);
an index count different from the requested count is reported as the
generic error; and texture writing has no failure channel into the export
result at all (its status is discarded, so it can never unwind). -/
theorem c3_error_propagation (f : FaceInput) (xf : Transform)
    (w : ObjWriter) :
    (f.createMeshRes ≠ SUResult.errorNone →
      (ExportFaceOBJ f xf w).2 = f.createMeshRes) ∧
    (∀ (fs : List FaceInput) (gs ins : List (Transform × Node)),
      (ExportFaceOBJ f xf w).2 ≠ SUResult.errorNone →
      ExportEntitiesOBJ (Node.mk (f :: fs) gs ins) xf w =
        ExportFaceOBJ f xf w) ∧
    (∀ (t : Transform) (child : Node) (gs ins : List (Transform × Node)),
      (ExportEntitiesOBJ child (transformMultiply xf t) w).2 ≠
        SUResult.errorNone →
      ExportEntitiesOBJ (Node.mk [] ((t, child) :: gs) ins) xf w =
        ExportEntitiesOBJ child (transformMultiply xf t) w) ∧
    (f.createMeshRes = SUResult.errorNone →
      f.gotIndices = f.numTriangles * 3 →
      (ExportFaceOBJ f xf w).2 = SUResult.errorNone) ∧
    (f.createMeshRes = SUResult.errorNone → f.numVertices ≠ 0 →
      f.numTriangles ≠ 0 → f.gotIndices ≠ f.numTriangles * 3 →
      (ExportFaceOBJ f xf w).2 = SUResult.errorGeneric) := by
  refine ⟨?_, ?_, ?_, ?_, ?_⟩
  · intro h
    unfold ExportFaceOBJ
    rw [if_pos h]
  · intro fs gs ins h
    rcases he : ExportFaceOBJ f xf w with ⟨w1, r⟩
    rw [he] at h
    cases r with
    | errorNone => exact absurd rfl h
    | errorGeneric => simp [ExportEntitiesOBJ, exportFaces, he]
    | other code => simp [ExportEntitiesOBJ, exportFaces, he]
  · intro t child gs ins h
    rcases he : ExportEntitiesOBJ child (transformMultiply xf t) w
      with ⟨w1, r⟩
    rw [he] at h
    cases r with
    | errorNone => exact absurd rfl h
    | errorGeneric => simp [ExportEntitiesOBJ, exportFaces, exportChildren, he]
    | other code => simp [ExportEntitiesOBJ, exportFaces, exportChildren, he]
  · intro h1 h2
    unfold ExportFaceOBJ
    rw [if_neg (by simp [h1])]
    by_cases hv : f.numVertices = 0
    · rw [if_pos hv]
    · rw [if_neg hv]
      by_cases ht : f.numTriangles = 0
      · rw [if_pos ht]
      · rw [if_neg ht, if_neg (by simp [h2])]
  · intro h1 hv ht hi
    unfold ExportFaceOBJ
    rw [if_neg (by simp [h1]), if_neg hv, if_neg ht, if_pos hi]

/-- C3 witness: the amended propagation facts applied to a face whose
mesh creation fails with a concrete non-generic error code, inside a node
with a second face that is then never exported. -/
theorem c3_witness :
    ({ emptyFace with createMeshRes := SUResult.other 5 } :
        FaceInput).createMeshRes ≠ SUResult.errorNone ∧
    (ExportFaceOBJ { emptyFace with createMeshRes := SUResult.other 5 }
        identityTransform initWriter).2 = SUResult.other 5 := by
  have h := (c3_error_propagation
    { emptyFace with createMeshRes := SUResult.other 5 }
    identityTransform initWriter).1 (by decide)
  exact ⟨by decide, h⟩

/-- C8: invoking the converter with format value dae, in positional or in
flag form, terminates with exit code 2 and performs no filesystem effect:
no directory is created and no file (model.obj, model.mtl or texture) is
written, because the dae rejection happens before any output path is
touched. -/
theorem c8_dae_rejected (world : World) (input outDir : String)
    (hi : input ≠ "") (ho : outDir ≠ "")
    (hdi : headByte input ≠ Char.ofNat 45)
    (hdo : headByte outDir ≠ Char.ofNat 45) :
    mainRun world [input, outDir, "dae"] = (2, []) ∧
    mainRun world ["--input", input, "--outputDir", outDir,
      "--format", "dae"] = (2, []) := by
  constructor
  · have hd : headByte ("dae") ≠ Char.ofNat 45 := by decide
    simp only [mainRun, parseArgs]
    rw [if_pos ⟨hdi, hdo⟩]
    simp [hd, hi, ho]
  · have h1 : ¬(headByte ("--input") ≠ Char.ofNat 45 ∧
        headByte input ≠ Char.ofNat 45) := fun hc => hc.1 (by decide)
    simp only [mainRun, parseArgs]
    rw [if_neg h1]
    simp [parseFlags, hi, ho]

/-- C8 witness: the dae rejection applied to concrete arguments and a
concrete world. -/
theorem c8_witness :
    mainRun ⟨true, SUResult.errorNone, Node.mk [] [] []⟩
      ["in.skp", "out", "dae"] = (2, []) :=
  (c8_dae_rejected ⟨true, SUResult.errorNone, Node.mk [] [] []⟩
    ("in.skp") ("out") (by decide) (by decide) (by decide) (by decide)).1

